import Mathlib

/-!
Shallow embedding of the hyper-poly arbitrage engine
(src/src/arbitrage/{detector,hyperliquid_detector,executor,hyperliquid_executor}.py,
src/src/models.py, src/src/config.py) for checking the specification claims.

Python Decimal / float arithmetic is modelled over ℚ.  Library functions the
source calls out to (scipy.stats.norm.cdf, Decimal.sqrt / numpy.sqrt) are
passed in as function parameters (oracles); Python exceptions that the source
catches are modelled by explicit guards returning the same fallback the
handler produces; datetimes are rationals counting seconds.
-/

namespace HyperPoly

/-- MarketSide enum of src/src/models.py. -/
inductive MarketSide
  | UP
  | DOWN
  | LONG
  | SHORT
deriving DecidableEq, Repr

/-- PositionStatus enum of src/src/models.py. -/
inductive PositionStatus
  | PENDING
  | OPEN
  | PARTIAL
  | CLOSED
  | CANCELLED
  | ERROR
deriving DecidableEq, Repr

/-- ExecutionStrategy enum (executor.py has AGGRESSIVE/PASSIVE/ADAPTIVE, the
hyperliquid executor adds TWAP). -/
inductive ExecutionStrategy
  | AGGRESSIVE
  | PASSIVE
  | ADAPTIVE
  | TWAP
deriving DecidableEq, Repr

/-- PolymarketMarket of src/src/models.py (the fields the engine reads).
Timestamps are rational seconds. -/
structure PolymarketMarket where
  target_price : ℚ
  expiry_time : ℚ
  up_price : ℚ
  down_price : ℚ
  up_liquidity : ℚ
  down_liquidity : ℚ
deriving DecidableEq, Repr

/-- models.py PolymarketMarket.time_to_expiry_hours: (expiry_time − utcnow)/3600,
with the current wall clock passed explicitly. -/
def PolymarketMarket.time_to_expiry_hours (m : PolymarketMarket) (now : ℚ) : ℚ :=
  (m.expiry_time - now) / 3600

/-- SpotMarket of src/src/models.py (quote snapshot). -/
structure SpotMarket where
  bid : ℚ
  ask : ℚ
deriving DecidableEq, Repr

/-- models.py SpotMarket.mid_price. -/
def SpotMarket.mid_price (m : SpotMarket) : ℚ :=
  (m.bid + m.ask) / 2

/-- ArbitrageOpportunity of src/src/models.py (the fields detection fills and
the engine reads; sharpe_ratio is set after construction and no claim uses it). -/
structure ArbitrageOpportunity where
  polymarket_side : MarketSide
  polymarket_price : ℚ
  polymarket_quantity : ℚ
  hedge_side : MarketSide
  hedge_price : ℚ
  hedge_quantity : ℚ
  expected_profit_usd : ℚ
  expected_profit_percentage : ℚ
  breakeven_price : ℚ
  max_risk_usd : ℚ
  probability_of_profit : ℚ
  expires_at : ℚ
deriving DecidableEq, Repr

/-! Configuration constants of src/src/config.py (defaults). -/

/-- config.MIN_PROFIT_THRESHOLD_USD. -/
def MIN_PROFIT_THRESHOLD_USD : ℚ := 50

/-- config.MAX_POSITION_SIZE_USD. -/
def MAX_POSITION_SIZE_USD : ℚ := 5000

/-- config.DEFAULT_LEVERAGE. -/
def DEFAULT_LEVERAGE : ℚ := 5

/-- config.MAX_LEVERAGE. -/
def MAX_LEVERAGE : ℚ := 10

/-- config.FUNDING_RATE_THRESHOLD. -/
def FUNDING_RATE_THRESHOLD : ℚ := 1 / 100

/-- config.stop_loss_decimal = DEFAULT_STOP_LOSS_PERCENT / 100 = 2/100. -/
def stop_loss_decimal : ℚ := 2 / 100

/-- config.hyperliquid_fees taker rate. -/
def hyperliquid_taker_fee : ℚ := 3 / 10000

/-- config.MAX_DAILY_TRADES. -/
def MAX_DAILY_TRADES : ℕ := 20

/-- config.MAX_CONCURRENT_POSITIONS. -/
def MAX_CONCURRENT_POSITIONS : ℕ := 5

/-! ### Generic detector (src/src/arbitrage/detector.py) -/

/-- detector.py ArbitrageDetector._calculate_probability_of_profit.
sqrtQ models Decimal.sqrt and cdf models scipy.stats.norm.cdf.  The source
wraps the body in try/except returning Decimal("0.4"): a negative time makes
Decimal.sqrt raise, and a zero current price or a zero period standard
deviation makes a division raise; those branches return the 2/5 fallback. -/
def calcProbabilityOfProfit (sqrtQ cdf : ℚ → ℚ) (current_price target_price : ℚ)
    (hours_to_expiry : ℚ) (side : MarketSide) : ℚ :=
  if hours_to_expiry < 0 then 2 / 5
  else
    let daily_volatility : ℚ := 3 / 100
    let time_in_days := hours_to_expiry / 24
    let period_std := daily_volatility * sqrtQ time_in_days
    if current_price = 0 ∨ period_std = 0 then 2 / 5
    else
      let price_return := (target_price - current_price) / current_price
      let z_score := price_return / period_std
      let probability := if side = MarketSide.DOWN then cdf z_score else 1 - cdf z_score
      let time_adjustment := min ((1 : ℚ) / 10) (hours_to_expiry / 240)
      let probability := probability * (1 + time_adjustment)
      max 0 (min 1 probability)

/-- The intermediate quantities of detector.py _analyze_market_pair, lines
125-200, computed from the market pair. -/
structure GenericCalc where
  pm_side : MarketSide
  pm_price : ℚ
  hedge_side : MarketSide
  breakeven_price : ℚ
  pm_position_value : ℚ
  pm_quantity : ℚ
  hedge_value : ℚ
  hedge_quantity : ℚ
  win_profit : ℚ
  pm_loss : ℚ
  max_risk : ℚ
  total_fees : ℚ
deriving DecidableEq, Repr

/-- detector.py _analyze_market_pair lines 128-200: side selection, sizing,
win/loss scenario values and fees (the pure arithmetic before the probability
weighting). -/
def genericCalc (taker_fee : ℚ) (pm_market : PolymarketMarket)
    (spot_market : SpotMarket) : GenericCalc :=
  let current_price := spot_market.mid_price
  let target_price := pm_market.target_price
  let below := current_price < target_price
  let pm_side := if below then MarketSide.DOWN else MarketSide.UP
  let pm_price := if below then pm_market.down_price else pm_market.up_price
  let hedge_side := if below then MarketSide.LONG else MarketSide.SHORT
  let pm_position_value :=
    min (MAX_POSITION_SIZE_USD * (1 / 2))
      (if pm_side = MarketSide.UP then pm_market.up_liquidity else pm_market.down_liquidity)
  let pm_quantity := pm_position_value / pm_price
  let hedge_value := pm_quantity * (1 - pm_price)
  let hedge_quantity := hedge_value / current_price
  let pm_profit := pm_quantity * (1 - pm_price)
  let hedge_pnl_at_target :=
    if hedge_side = MarketSide.LONG then hedge_quantity * (target_price - current_price)
    else hedge_quantity * (current_price - target_price)
  let win_profit := pm_profit - |hedge_pnl_at_target| * (1 / 2)
  let pm_loss := pm_quantity * pm_price
  let total_fees := pm_position_value * (2 / 1000) + hedge_value * taker_fee * 2
  { pm_side := pm_side
    pm_price := pm_price
    hedge_side := hedge_side
    breakeven_price := target_price
    pm_position_value := pm_position_value
    pm_quantity := pm_quantity
    hedge_value := hedge_value
    hedge_quantity := hedge_quantity
    win_profit := win_profit
    pm_loss := pm_loss
    max_risk := pm_position_value
    total_fees := total_fees }

/-- detector.py ArbitrageDetector._analyze_market_pair.  Divisions that raise
on a zero Decimal denominator are caught by the enclosing try/except and turn
into a None result; those guards return none here. -/
def analyzeMarketPair (sqrtQ cdf : ℚ → ℚ) (taker_fee : ℚ)
    (pm_market : PolymarketMarket) (spot_market : SpotMarket) (now : ℚ) :
    Option ArbitrageOpportunity :=
  let current_price := spot_market.mid_price
  let target_price := pm_market.target_price
  let hours_to_expiry := pm_market.time_to_expiry_hours now
  if hours_to_expiry ≤ 0 then none
  else if current_price = 0 then none
  else
    let c := genericCalc taker_fee pm_market spot_market
    if c.pm_price > 85 / 100 then none
    else if c.pm_price = 0 then none
    else
      let prob_profit :=
        calcProbabilityOfProfit sqrtQ cdf current_price target_price hours_to_expiry c.pm_side
      let expected_profit :=
        prob_profit * c.win_profit - (1 - prob_profit) * c.pm_loss - c.total_fees
      if expected_profit < MIN_PROFIT_THRESHOLD_USD then none
      else
        let total_capital := c.pm_position_value + c.hedge_value
        if total_capital = 0 then none
        else
          some
            { polymarket_side := c.pm_side
              polymarket_price := c.pm_price
              polymarket_quantity := c.pm_quantity
              hedge_side := c.hedge_side
              hedge_price := current_price
              hedge_quantity := c.hedge_quantity
              expected_profit_usd := expected_profit
              expected_profit_percentage := expected_profit / total_capital * 100
              breakeven_price := c.breakeven_price
              max_risk_usd := c.max_risk
              probability_of_profit := prob_profit
              expires_at := pm_market.expiry_time }

/-- detector.py scan_for_opportunities ranking key: the final sort is
opportunities.sort(key=lambda x: x.expected_profit_usd, reverse=True). -/
def sortKeyGeneric (o : ArbitrageOpportunity) : ℚ :=
  o.expected_profit_usd

/-- hyperliquid_detector.py scan_for_opportunities ranking key:
key=lambda x: x.expected_profit_usd * x.probability_of_profit. -/
def sortKeyHL (o : ArbitrageOpportunity) : ℚ :=
  o.expected_profit_usd * o.probability_of_profit

/-- Descending-by-key order used to model list.sort(key=…, reverse=True). -/
def keyGE (key : ArbitrageOpportunity → ℚ) (a b : ArbitrageOpportunity) : Prop :=
  key b ≤ key a

instance (key : ArbitrageOpportunity → ℚ) : DecidableRel (keyGE key) :=
  fun a b => inferInstanceAs (Decidable (key b ≤ key a))

/-- detector.py scan_for_opportunities: per asset the Polymarket markets and
one hedge quote are fetched (assets whose fetch fails are skipped and are
simply absent from the input list), every pair is analyzed, and the collected
opportunities are sorted descending by expected_profit_usd. -/
def scanForOpportunities (sqrtQ cdf : ℚ → ℚ) (taker_fee : ℚ)
    (fetched : List (List PolymarketMarket × SpotMarket)) (now : ℚ) :
    List ArbitrageOpportunity :=
  let opportunities :=
    fetched.foldr
      (fun input acc =>
        input.1.filterMap (fun pm => analyzeMarketPair sqrtQ cdf taker_fee pm input.2 now) ++ acc)
      []
  List.insertionSort (keyGE sortKeyGeneric) opportunities

/-! ### Hyperliquid detector (src/src/arbitrage/hyperliquid_detector.py) -/

/-- hyperliquid_detector.py _get_implied_volatility (price-bracket table). -/
def getImpliedVolatility (price : ℚ) (_hours : ℚ) : ℚ :=
  if price > 50000 then 6 / 10
  else if price > 2000 then 75 / 100
  else 9 / 10

/-- hyperliquid_detector.py _estimate_win_probability (the probability the
expected-profit calculation actually uses).  The side argument is accepted and
ignored exactly as in the source.  distance_pct is a Decimal while
time_factor = min(1, hours/48) is the float hours/48 whenever hours < 48, so
the product distance_pct * time_factor (line 508) raises TypeError there —
caught by _calculate_expected_profit, which returns None; modelled as none.
For hours ≥ 48, min returns the int 1 and the all-Decimal arithmetic goes
through.  A zero current price makes the distance division raise (none). -/
def estimateWinProbability (current target : ℚ) (hours : ℚ) (_side : MarketSide) :
    Option ℚ :=
  if current = 0 then none
  else if hours < 48 then none
  else
    let distance_pct := |current - target| / current
    let time_factor : ℚ := 1
    let base_prob := 1 / 2 + distance_pct * time_factor
    some (min (85 / 100) base_prob)

/-- hyperliquid_detector.py _calculate_probability_with_funding (the
probability stored on the emitted opportunity).  Inside the try block, drift
is a Decimal and time_years a float, so the product drift * time_years
(line 456) raises TypeError on every call; the except handler returns
Decimal("0.4").  The routine therefore always yields 2/5 and never reaches
the numpy / scipy calls, whose oracles are accepted and ignored. -/
def calcProbabilityWithFunding (_sqrtQ _cdf : ℚ → ℚ) (_current_price _target_price : ℚ)
    (_hours_to_expiry : ℚ) (_side : MarketSide) (_funding_rate : ℚ) : ℚ :=
  2 / 5

/-- hyperliquid_detector.py _determine_strategy.  A zero target price would
make the percentage division raise (the exception is caught by the caller and
yields no opportunity); that case returns none here. -/
def determineStrategy (current_price target_price : ℚ) (pm_market : PolymarketMarket)
    (funding_rate : ℚ) : Option (MarketSide × MarketSide) :=
  if target_price = 0 then none
  else
    let price_diff_pct := (current_price - target_price) / target_price * 100
    let funding_bias := funding_rate > 0
    if |price_diff_pct| < 1 then none
    else if current_price < target_price then
      if funding_bias then
        if pm_market.down_price < 6 / 10 then some (MarketSide.DOWN, MarketSide.LONG) else none
      else some (MarketSide.DOWN, MarketSide.LONG)
    else
      if funding_bias then some (MarketSide.UP, MarketSide.SHORT)
      else if pm_market.up_price < 6 / 10 then some (MarketSide.UP, MarketSide.SHORT) else none

/-- hyperliquid_detector.py _calculate_position_sizes.  Zero denominators
raise and are caught (→ None). -/
def hlCalcPositionSizes (pm_market : PolymarketMarket) (hl_market : SpotMarket)
    (pm_side : MarketSide) (pm_price : ℚ) (funding_cost_pct : ℚ) : Option (ℚ × ℚ) :=
  if pm_price = 0 then none
  else
    let pm_liquidity :=
      if pm_side = MarketSide.UP then pm_market.up_liquidity else pm_market.down_liquidity
    let max_pm_value := min (MAX_POSITION_SIZE_USD * (4 / 10)) (pm_liquidity * (1 / 10))
    let pm_quantity := max_pm_value / pm_price
    let leverage := DEFAULT_LEVERAGE
    let funding_adjustment := 1 + funding_cost_pct
    let hedge_value := pm_quantity * (1 - pm_price) * funding_adjustment
    let hedge_capital_required := hedge_value / leverage
    let scaled :=
      if hedge_capital_required > MAX_POSITION_SIZE_USD * (6 / 10) then
        let scale_factor := MAX_POSITION_SIZE_USD * (6 / 10) / hedge_capital_required
        (pm_quantity * scale_factor, hedge_value * scale_factor)
      else (pm_quantity, hedge_value)
    if hl_market.mid_price = 0 then none
    else some (scaled.1, scaled.2 / hl_market.mid_price)

/-- The win-scenario profit and loss-scenario loss of hyperliquid_detector.py
_calculate_expected_profit (lines 377-397). -/
def hlProfitComponents (pm_quantity pm_price hedge_quantity current_price target_price : ℚ)
    (hedge_side : MarketSide) (funding_cost_pct : ℚ) : ℚ × ℚ :=
  let pm_win_profit := pm_quantity * (1 - pm_price)
  let hedge_pnl_at_target :=
    if hedge_side = MarketSide.LONG then hedge_quantity * (target_price - current_price)
    else hedge_quantity * (current_price - target_price)
  let funding_cost := hedge_quantity * current_price * |funding_cost_pct|
  let funding_cost :=
    if hedge_side = MarketSide.SHORT ∧ funding_cost_pct > 0 then -funding_cost else funding_cost
  let win_profit := pm_win_profit + hedge_pnl_at_target - funding_cost
  let pm_loss := pm_quantity * pm_price
  (win_profit, pm_loss)

/-- The signed funding cost of _calculate_expected_profit, needed for its
max_risk output. -/
def hlFundingCost (hedge_quantity current_price : ℚ) (hedge_side : MarketSide)
    (funding_cost_pct : ℚ) : ℚ :=
  let funding_cost := hedge_quantity * current_price * |funding_cost_pct|
  if hedge_side = MarketSide.SHORT ∧ funding_cost_pct > 0 then -funding_cost else funding_cost

/-- hyperliquid_detector.py _calculate_expected_profit: returns
(expected_profit, max_risk, breakeven_price), weighting by
_estimate_win_probability — not by the probability later stored on the
opportunity.  A zero hedge quantity makes the breakeven division raise, and
the _estimate_win_probability TypeError for expiries under 48 hours is caught
by the same except handler: both produce None. -/
def hlCalcExpectedProfit (pm_quantity pm_price hedge_quantity current_price target_price : ℚ)
    (hedge_side : MarketSide) (funding_cost_pct : ℚ) (hours_to_expiry : ℚ) :
    Option (ℚ × ℚ × ℚ) :=
  if hedge_quantity = 0 then none
  else
    let wl := hlProfitComponents pm_quantity pm_price hedge_quantity current_price target_price
      hedge_side funding_cost_pct
    let funding_cost := hlFundingCost hedge_quantity current_price hedge_side funding_cost_pct
    let pm_loss := wl.2
    let max_risk := pm_quantity * pm_price + funding_cost
    let breakeven_price :=
      if hedge_side = MarketSide.LONG then current_price + pm_loss / hedge_quantity
      else current_price - pm_loss / hedge_quantity
    match estimateWinProbability current_price target_price hours_to_expiry hedge_side with
    | none => none
    | some prob => some (prob * wl.1 - (1 - prob) * pm_loss, max_risk, breakeven_price)

/-- hyperliquid_detector.py _calculate_total_fees. -/
def hlCalcTotalFees (pm_value hedge_value : ℚ) : ℚ :=
  pm_value * (2 / 1000) + hedge_value * hyperliquid_taker_fee * 2

/-- hyperliquid_detector.py _analyze_market_pair lines 139-140: funding cost
over the holding period, int(hours/8) funding periods (truncation and floor
agree because the caller ensures hours > 0). -/
def hlFundingCostPct (funding_rate hours_to_expiry : ℚ) : ℚ :=
  funding_rate * ((⌊hours_to_expiry / 8⌋ : ℤ) : ℚ)

/-- hyperliquid_detector.py HyperliquidArbitrageDetector._analyze_market_pair. -/
def hlAnalyzeMarketPair (sqrtQ cdf : ℚ → ℚ) (pm_market : PolymarketMarket)
    (hl_market : SpotMarket) (funding_rate : ℚ) (now : ℚ) : Option ArbitrageOpportunity :=
  let current_price := hl_market.mid_price
  let target_price := pm_market.target_price
  let hours_to_expiry := pm_market.time_to_expiry_hours now
  if hours_to_expiry ≤ 0 then none
  else
    let funding_cost_pct := hlFundingCostPct funding_rate hours_to_expiry
    if funding_cost_pct < -FUNDING_RATE_THRESHOLD then none
    else
      match determineStrategy current_price target_price pm_market funding_rate with
      | none => none
      | some sides =>
        let pm_side := sides.1
        let hedge_side := sides.2
        let pm_price :=
          if pm_side = MarketSide.UP then pm_market.up_price else pm_market.down_price
        if pm_price > 9 / 10 then none
        else
          match hlCalcPositionSizes pm_market hl_market pm_side pm_price funding_cost_pct with
          | none => none
          | some sizes =>
            let pm_quantity := sizes.1
            let hedge_quantity := sizes.2
            match hlCalcExpectedProfit pm_quantity pm_price hedge_quantity current_price
              target_price hedge_side funding_cost_pct hours_to_expiry with
            | none => none
            | some profit_calc =>
              let total_fees :=
                hlCalcTotalFees (pm_quantity * pm_price) (hedge_quantity * current_price)
              let expected_profit := profit_calc.1 - total_fees
              if expected_profit < MIN_PROFIT_THRESHOLD_USD then none
              else
                let prob_profit := calcProbabilityWithFunding sqrtQ cdf current_price
                  target_price hours_to_expiry pm_side funding_rate
                let total_capital :=
                  pm_quantity * pm_price + hedge_quantity * current_price / DEFAULT_LEVERAGE
                if total_capital = 0 then none
                else
                  some
                    { polymarket_side := pm_side
                      polymarket_price := pm_price
                      polymarket_quantity := pm_quantity
                      hedge_side := hedge_side
                      hedge_price := current_price
                      hedge_quantity := hedge_quantity
                      expected_profit_usd := expected_profit
                      expected_profit_percentage := expected_profit / total_capital * 100
                      breakeven_price := profit_calc.2.2
                      max_risk_usd := profit_calc.2.1
                      probability_of_profit := prob_profit
                      expires_at := pm_market.expiry_time }

/-- hyperliquid_detector.py scan_for_opportunities: per asset the markets, the
hedge quote and the funding rate are fetched, pairs are analyzed, and the
result is sorted descending by expected_profit_usd * probability_of_profit. -/
def hlScanForOpportunities (sqrtQ cdf : ℚ → ℚ)
    (fetched : List (List PolymarketMarket × SpotMarket × ℚ)) (now : ℚ) :
    List ArbitrageOpportunity :=
  let opportunities :=
    fetched.foldr
      (fun input acc =>
        input.1.filterMap
          (fun pm => hlAnalyzeMarketPair sqrtQ cdf pm input.2.1 input.2.2 now) ++ acc)
      []
  List.insertionSort (keyGE sortKeyHL) opportunities

/-! ### Execution engines (src/src/arbitrage/executor.py and
src/src/arbitrage/hyperliquid_executor.py) -/

/-- Position of src/src/models.py (the fields the engines touch). -/
structure Position where
  position_id : ℕ
  status : PositionStatus
  polymarket_side : MarketSide
  polymarket_order_id : Option ℕ
  polymarket_entry_price : Option ℚ
  polymarket_quantity : Option ℚ
  hedge_side : MarketSide
  hedge_order_id : Option ℕ
  hedge_entry_price : Option ℚ
  hedge_quantity : Option ℚ
  stop_loss_price : Option ℚ
  take_profit_price : Option ℚ
  max_loss_usd : ℚ
  closed_at : Option ℚ
  expires_at : ℚ
deriving DecidableEq, Repr

/-- The Position object executor.py execute_opportunity builds before running
the legs (status defaults to PENDING, per-leg data unset). -/
def mkPendingPosition (pid : ℕ) (opp : ArbitrageOpportunity) : Position :=
  { position_id := pid
    status := PositionStatus.PENDING
    polymarket_side := opp.polymarket_side
    polymarket_order_id := none
    polymarket_entry_price := none
    polymarket_quantity := none
    hedge_side := opp.hedge_side
    hedge_order_id := none
    hedge_entry_price := none
    hedge_quantity := none
    stop_loss_price := none
    take_profit_price := none
    max_loss_usd := opp.max_risk_usd
    closed_at := none
    expires_at := opp.expires_at }

/-- executor.py _should_use_market_orders.  The ADAPTIVE branch evaluates
opportunity.time_value.total_seconds(), but models.py time_value is a Decimal,
so the attribute access raises (AttributeError) — modelled as none; the
exception is caught by execute_opportunity, which rolls back and returns None.
A TWAP value handed to this engine would fall into the same else branch. -/
def shouldUseMarketOrders (strategy : ExecutionStrategy) : Option Bool :=
  match strategy with
  | ExecutionStrategy.AGGRESSIVE => some true
  | ExecutionStrategy.PASSIVE => some false
  | _ => none

/-- executor.py _calculate_stop_loss: a fixed percentage below entry for a
long hedge, above it for a short hedge. -/
def calcStopLoss (entry_price : ℚ) (side : MarketSide) : ℚ :=
  if side = MarketSide.LONG then entry_price * (1 - stop_loss_decimal)
  else entry_price * (1 + stop_loss_decimal)

/-- executor.py _calculate_take_profit: halfway from entry toward the
breakeven target. -/
def calcTakeProfit (entry_price : ℚ) (side : MarketSide) (target_price : ℚ) : ℚ :=
  if side = MarketSide.LONG then entry_price + (target_price - entry_price) * (1 / 2)
  else entry_price - (entry_price - target_price) * (1 / 2)

/-- executor.py _rollback_position: unwinds whatever filled; on success the
position ends CANCELLED, and an exception inside the rollback itself ends it
ERROR.  The venue outcome of the rollback calls is the Boolean input. -/
def rollbackPosition (rollback_raises : Bool) (p : Position) : Position :=
  if rollback_raises then { p with status := PositionStatus.ERROR }
  else { p with status := PositionStatus.CANCELLED }

/-- Venue outcome of one leg submission: whether it filled within the timeout,
and the fill data read back from the order status. -/
structure LegFill where
  success : Bool
  entry_price : ℚ
  quantity : ℚ
  fees : ℚ
deriving DecidableEq, Repr

/-- Venue outcomes one execute_opportunity call observes. -/
structure ExecEnv where
  pm_leg : LegFill
  hedge_leg : LegFill
  rollback_raises : Bool
deriving DecidableEq, Repr

/-- Result of one execute_opportunity call: what the caller receives, and the
final state of the Position object it built (none when rejected before the
object was created). -/
structure ExecOutcome where
  returned : Option Position
  position : Option Position
deriving DecidableEq, Repr

/-- executor.py ExecutionEngine.execute_opportunity: risk pre-check, PENDING
position, both legs (their venue outcomes are the ExecEnv), rollback when
either leg fails or the order-type determination raises, otherwise stop-loss /
take-profit assignment and status OPEN. -/
def executeOpportunity (strategy : ExecutionStrategy) (env : ExecEnv) (riskOk : Bool)
    (opp : ArbitrageOpportunity) (pid : ℕ) : ExecOutcome :=
  if riskOk = false then { returned := none, position := none }
  else
    let p0 := mkPendingPosition pid opp
    match shouldUseMarketOrders strategy with
    | none => { returned := none, position := some (rollbackPosition env.rollback_raises p0) }
    | some _use_market =>
      let p1 :=
        if env.pm_leg.success then
          { p0 with
            polymarket_entry_price := some env.pm_leg.entry_price
            polymarket_quantity := some env.pm_leg.quantity }
        else p0
      let p2 :=
        if env.hedge_leg.success then
          { p1 with
            hedge_entry_price := some env.hedge_leg.entry_price
            hedge_quantity := some env.hedge_leg.quantity }
        else p1
      if env.pm_leg.success && env.hedge_leg.success then
        let entry := env.hedge_leg.entry_price
        let p3 :=
          { p2 with
            stop_loss_price := some (calcStopLoss entry opp.hedge_side)
            take_profit_price := some (calcTakeProfit entry opp.hedge_side opp.breakeven_price)
            status := PositionStatus.OPEN }
        { returned := some p3, position := some p3 }
      else
        { returned := none, position := some (rollbackPosition env.rollback_raises p2) }

/-- hyperliquid_executor.py _create_execution_plan output shape. -/
structure ExecPlanRec where
  use_market_orders : Bool
  polymarket_chunks : ℕ
  hyperliquid_chunks : ℕ
  leverage : ℚ
  post_only : Bool
  time_limit : ℚ
deriving DecidableEq, Repr

/-- hyperliquid_executor.py _create_execution_plan.  hours_to_expiry is
(opportunity.expires_at − utcnow)/3600, pm_notional and hl_notional are the
leg notionals, profit_pct the expected profit percentage. -/
def createExecutionPlan (strategy : ExecutionStrategy)
    (hours_to_expiry pm_notional hl_notional profit_pct : ℚ) : ExecPlanRec :=
  let plan : ExecPlanRec :=
    { use_market_orders := false
      polymarket_chunks := 1
      hyperliquid_chunks := 1
      leverage := DEFAULT_LEVERAGE
      post_only := false
      time_limit := 60 }
  if strategy = ExecutionStrategy.AGGRESSIVE ∨ hours_to_expiry < 2 then
    { plan with use_market_orders := true, time_limit := 30 }
  else if strategy = ExecutionStrategy.PASSIVE then
    { plan with use_market_orders := false, post_only := true, time_limit := 120 }
  else if strategy = ExecutionStrategy.TWAP then
    let plan := if pm_notional > 1000 then { plan with polymarket_chunks := 3 } else plan
    if hl_notional > 5000 then { plan with hyperliquid_chunks := 5 } else plan
  else
    if hours_to_expiry < 4 then { plan with use_market_orders := true }
    else if profit_pct > 5 then
      { plan with
        use_market_orders := true
        leverage := min MAX_LEVERAGE (DEFAULT_LEVERAGE + 2) }
    else plan

/-- hyperliquid_executor.py _set_risk_parameters: stop loss tightened by the
leverage, take profit at 95% of the opportunity breakeven price.  An unset
entry price makes the Decimal arithmetic raise; the method catches its own
exception and leaves both fields unset. -/
def hlSetRiskParameters (p : Position) (opp : ArbitrageOpportunity) : Position :=
  match p.hedge_entry_price with
  | none => p
  | some entry =>
    let adjusted_stop_pct := stop_loss_decimal / DEFAULT_LEVERAGE
    let stop :=
      if p.hedge_side = MarketSide.LONG then entry * (1 - adjusted_stop_pct)
      else entry * (1 + adjusted_stop_pct)
    { p with
      stop_loss_price := some stop
      take_profit_price := some (opp.breakeven_price * (95 / 100)) }

/-- Venue outcomes one hyperliquid execute_opportunity call observes:
whether the parallel (or TWAP) submission of both legs succeeded, and the fill
data read back. -/
structure HLExecEnv where
  exec_success : Bool
  pm_fill_price : ℚ
  pm_fill_qty : ℚ
  hl_entry_price : ℚ
  hl_qty : ℚ
  rollback_raises : Bool
deriving DecidableEq, Repr

/-- hyperliquid_executor.py HyperliquidExecutor.execute_opportunity:
pre-checks, PENDING position, both legs under the execution plan (the plan
itself is createExecutionPlan; the venue outcome is the HLExecEnv), rollback
when the combined submission failed, otherwise _set_risk_parameters and
status OPEN. -/
def hlExecuteOpportunity (env : HLExecEnv) (riskOk : Bool) (opp : ArbitrageOpportunity)
    (pid : ℕ) : ExecOutcome :=
  if riskOk = false then { returned := none, position := none }
  else
    let p0 := mkPendingPosition pid opp
    if env.exec_success then
      let p1 :=
        { p0 with
          polymarket_entry_price := some env.pm_fill_price
          polymarket_quantity := some env.pm_fill_qty
          hedge_entry_price := some env.hl_entry_price
          hedge_quantity := some env.hl_qty }
      let p2 := hlSetRiskParameters p1 opp
      let p3 := { p2 with status := PositionStatus.OPEN }
      { returned := some p3, position := some p3 }
    else
      { returned := none, position := some (rollbackPosition env.rollback_raises p0) }

/-! ### Risk counters and position ledger -/

/-- The daily-trade counter state of both executors: daily_trade_count and
last_trade_reset (a UTC date, modelled as a day ordinal). -/
structure DailyCounter where
  daily_trade_count : ℕ
  last_trade_reset : ℕ
deriving DecidableEq, Repr

/-- executor.py / hyperliquid_executor.py _check_risk_limits: reset the daily
counter when the UTC date advanced past the last reset, then check the
concurrent-position cap (active_len is len(self.active_positions)) and the
daily-trade cap.  Returns the verdict and the updated counter state. -/
def checkRiskLimits (today : ℕ) (active_len : ℕ) (s : DailyCounter) : Bool × DailyCounter :=
  let s1 :=
    if s.last_trade_reset < today then
      { s with daily_trade_count := 0, last_trade_reset := today }
    else s
  if MAX_CONCURRENT_POSITIONS ≤ active_len then (false, s1)
  else if MAX_DAILY_TRADES ≤ s1.daily_trade_count then (false, s1)
  else (true, s1)

/-- The daily_trade_count += 1 a successful execution performs. -/
def recordTrade (s : DailyCounter) : DailyCounter :=
  { s with daily_trade_count := s.daily_trade_count + 1 }

/-- One counter-relevant event inside a UTC day: a risk-limit check or a
successful execution incrementing the counter. -/
inductive RiskEvent
  | riskCheck
  | tradeExecuted
deriving DecidableEq, Repr

/-- A sequence of risk checks and successful executions all happening on the
UTC date today, applied to the counter state. -/
def runRiskEvents (today : ℕ) (active_len : ℕ) (s : DailyCounter) :
    List RiskEvent → DailyCounter
  | [] => s
  | RiskEvent.riskCheck :: evs =>
    runRiskEvents today active_len (checkRiskLimits today active_len s).2 evs
  | RiskEvent.tradeExecuted :: evs => runRiskEvents today active_len (recordTrade s) evs

/-- Number of executions in an event sequence. -/
def countTrades (evs : List RiskEvent) : ℕ :=
  (evs.filter (fun e => e = RiskEvent.tradeExecuted)).length

/-- The executor position ledger: active positions and the append-only
history. -/
structure ExecutorLedger where
  active_positions : List Position
  position_history : List Position
deriving DecidableEq, Repr

/-- Lookup by position id in the active set. -/
def findPosition (st : ExecutorLedger) (pid : ℕ) : Option Position :=
  st.active_positions.find? (fun q => q.position_id == pid)

/-- len(self.active_positions). -/
def activeCount (st : ExecutorLedger) : ℕ :=
  st.active_positions.length

/-- The status := ERROR mutation the close_position exception handler
performs. -/
def setStatusError (p : Position) : Position :=
  { p with status := PositionStatus.ERROR }

/-- Mutate the position with the given id in place (the ledger holds the same
object close_position mutates). -/
def markError (pid : ℕ) (l : List Position) : List Position :=
  l.map fun q => if q.position_id == pid then setStatusError q else q

/-- executor.py / hyperliquid_executor.py close_position.  When the hedge
close order raises (close_order_raises), the except handler only sets
status := ERROR: no closed_at stamp, no move to history, no removal from the
active set.  On success the position is stamped CLOSED with closed_at,
appended to history and deleted from the active set. -/
def closePosition (close_order_raises : Bool) (now : ℚ) (st : ExecutorLedger) (pid : ℕ) :
    ExecutorLedger :=
  if close_order_raises then
    { st with active_positions := markError pid st.active_positions }
  else
    { active_positions := st.active_positions.filter (fun q => !(q.position_id == pid))
      position_history :=
        st.position_history ++
          (st.active_positions.filter (fun q => q.position_id == pid)).map
            (fun q => { q with status := PositionStatus.CLOSED, closed_at := some now }) }

/-- One position handled by one monitor_positions iteration: a position whose
status is not OPEN is skipped (continue); an OPEN one is closed on expiry or
on a stop-loss / take-profit breach against the fetched price (none when the
quote fetch failed, which also skips).  Unset stop or take-profit levels make
the comparison raise; the loop body's exception handler then leaves the state
unchanged. -/
def monitorProcessPosition (close_order_raises : Bool) (now : ℚ)
    (current_price : Option ℚ) (st : ExecutorLedger) (p : Position) : ExecutorLedger :=
  if p.status ≠ PositionStatus.OPEN then st
  else if p.expires_at ≤ now then closePosition close_order_raises now st p.position_id
  else
    match current_price with
    | none => st
    | some price =>
      match p.stop_loss_price, p.take_profit_price with
      | some stop, some take =>
        if p.hedge_side = MarketSide.LONG then
          if price ≤ stop then closePosition close_order_raises now st p.position_id
          else if take ≤ price then closePosition close_order_raises now st p.position_id
          else st
        else
          if stop ≤ price then closePosition close_order_raises now st p.position_id
          else if price ≤ take then closePosition close_order_raises now st p.position_id
          else st
      | _, _ => st

/-! ### Validator (detector.py validate_opportunity) -/

/-- The venue responses one validate_opportunity call would observe, in call
order: the re-fetched hedge quote, the Polymarket order-book depth on the
chosen side, and the two balances. -/
structure ValidateEnv where
  market_data : Option SpotMarket
  pm_book_liquidity : ℚ
  pm_balance : ℚ
  exchange_usdt_balance : ℚ
deriving DecidableEq, Repr

/-- detector.py ArbitrageDetector.validate_opportunity, instrumented with the
number of venue calls made (quote fetch, order-book fetch, two balance
fetches).  Warning strings stand for the formatted messages of the source; the
expiry check runs before any venue call.  A zero stored hedge price would make
the percentage division raise, which the except handler turns into
(False, [str(e)]). -/
def validateOpportunity (env : ValidateEnv) (now : ℚ) (opp : ArbitrageOpportunity) :
    (Bool × List String) × ℕ :=
  if opp.expires_at ≤ now then ((false, ["Market has expired"]), 0)
  else
    match env.market_data with
    | none => ((false, ["Cannot fetch current market data"]), 1)
    | some current_spot =>
      if opp.hedge_price = 0 then ((false, ["division by zero"]), 1)
      else
        let price_change_pct :=
          |current_spot.mid_price - opp.hedge_price| / opp.hedge_price * 100
        let warnings : List String :=
          if price_change_pct > 2 then ["Price has moved"] else []
        let warnings :=
          warnings ++
            if env.pm_book_liquidity < opp.polymarket_quantity then
              ["Insufficient Polymarket liquidity"]
            else []
        let required_pm_capital := opp.polymarket_quantity * opp.polymarket_price
        let required_hedge_capital := opp.hedge_quantity * opp.hedge_price
        if env.pm_balance < required_pm_capital then
          ((false, ["Insufficient Polymarket balance"]), 4)
        else if env.exchange_usdt_balance < required_hedge_capital then
          ((false, ["Insufficient exchange balance"]), 4)
        else
          let is_valid :=
            warnings.length = 0 ∨ (warnings.length = 1 ∧ warnings = ["Price has moved"])
          ((decide is_valid, warnings), 4)

/-! ### Helper instances and lemmas -/

instance (key : ArbitrageOpportunity → ℚ) : IsTotal ArbitrageOpportunity (keyGE key) :=
  ⟨fun a b => le_total (key b) (key a)⟩

instance (key : ArbitrageOpportunity → ℚ) : IsTrans ArbitrageOpportunity (keyGE key) :=
  ⟨fun _ _ _ hab hbc => le_trans hbc hab⟩

/-- A risk check on a day the counter was already reset on leaves the counter
state unchanged. -/
lemma checkRiskLimits_sameDay (today active_len : ℕ) (s : DailyCounter)
    (h : s.last_trade_reset = today) : (checkRiskLimits today active_len s).2 = s := by
  have hlt : ¬ s.last_trade_reset < today := by omega
  simp only [checkRiskLimits, if_neg hlt]
  split_ifs <;> rfl

lemma countTrades_check (evs : List RiskEvent) :
    countTrades (RiskEvent.riskCheck :: evs) = countTrades evs := by
  simp [countTrades]

lemma countTrades_trade (evs : List RiskEvent) :
    countTrades (RiskEvent.tradeExecuted :: evs) = countTrades evs + 1 := by
  simp [countTrades]

/-- Marking one position errored rewrites the active list entrywise, so lookup
commutes with the marking. -/
lemma findPosition_markError (l : List Position) (pid : ℕ) :
    (markError pid l).find? (fun q => q.position_id == pid) =
      (l.find? (fun q => q.position_id == pid)).map setStatusError := by
  induction l with
  | nil => rfl
  | cons q l ih =>
    simp only [markError, List.map_cons]
    by_cases h : q.position_id = pid
    · rw [if_pos (by simpa using h)]
      rw [List.find?_cons_of_pos _ (by simp [setStatusError, h]),
        List.find?_cons_of_pos _ (by simp [h]), Option.map_some']
    · rw [if_neg (by simpa using h)]
      rw [List.find?_cons_of_neg _ (by simp [h]), List.find?_cons_of_neg _ (by simp [h])]
      simpa [markError] using ih

/-! ### C5: adaptive order-type selection -/

/-- C5 counterexample: in adaptive mode with 3 hours to expiry and a 1%
expected profit, the hyperliquid planner picks market orders although the
claimed rule (time below 2 hours or profit above the high-profit threshold)
says limit orders. -/
theorem C5_counterexample :
    (createExecutionPlan ExecutionStrategy.ADAPTIVE 3 0 0 1).use_market_orders = true ∧
      ¬ ((3 : ℚ) < 2 ∨ (1 : ℚ) > 5) := by
  constructor
  · rfl
  · push_neg
    constructor <;> norm_num

/-- C5 amended: the hyperliquid adaptive planner uses market orders exactly
when time-to-expiry is below 4 hours or the expected-profit percentage exceeds
5; the generic engine's adaptive branch raises on
opportunity.time_value.total_seconds() (time_value is a Decimal), so it never
reaches an order-type decision. -/
theorem C5_amended_theorem :
    ∀ hours_to_expiry pm_notional hl_notional profit_pct : ℚ,
      ((createExecutionPlan ExecutionStrategy.ADAPTIVE hours_to_expiry pm_notional
            hl_notional profit_pct).use_market_orders = true ↔
        (hours_to_expiry < 4 ∨ profit_pct > 5)) ∧
      shouldUseMarketOrders ExecutionStrategy.ADAPTIVE = none := by
  intro hours pm hl pct
  refine ⟨?_, rfl⟩
  by_cases h2 : hours < 2
  · have h4 : hours < 4 := by linarith
    simp [createExecutionPlan, h2, h4]
  · by_cases h4 : hours < 4
    · simp [createExecutionPlan, h2, h4]
    · by_cases h5 : pct > 5
      · simp [createExecutionPlan, h2, h4, h5]
      · simp [createExecutionPlan, h2, h4, h5]

/-! ### C6: probability of profit stays in the unit interval -/

/-- C6: for every oracle for the external sqrt and normal-cdf routines and all
inputs, both probability calculations return a value in [0,1], and the
numeric-failure branches (for instance a zero current price) return the fixed
conservative 0.4. -/
theorem C6_theorem :
    ∀ (sqrtQ cdf : ℚ → ℚ) (current_price target_price hours_to_expiry : ℚ)
      (side : MarketSide) (funding_rate : ℚ),
      (0 ≤ calcProbabilityOfProfit sqrtQ cdf current_price target_price hours_to_expiry side ∧
        calcProbabilityOfProfit sqrtQ cdf current_price target_price hours_to_expiry side ≤ 1) ∧
      (0 ≤ calcProbabilityWithFunding sqrtQ cdf current_price target_price hours_to_expiry
            side funding_rate ∧
        calcProbabilityWithFunding sqrtQ cdf current_price target_price hours_to_expiry
            side funding_rate ≤ 1) ∧
      (current_price = 0 →
        calcProbabilityOfProfit sqrtQ cdf current_price target_price hours_to_expiry side
          = 2 / 5) ∧
      (current_price = 0 →
        calcProbabilityWithFunding sqrtQ cdf current_price target_price hours_to_expiry
            side funding_rate = 2 / 5) := by
  intro sqrtQ cdf current target hours side funding
  have h01 : (0 : ℚ) ≤ 2 / 5 ∧ (2 : ℚ) / 5 ≤ 1 := by norm_num
  have hclamp : ∀ p : ℚ, 0 ≤ max 0 (min 1 p) ∧ max 0 (min 1 p) ≤ 1 := fun p =>
    ⟨le_max_left 0 _, max_le (by norm_num) (min_le_left 1 p)⟩
  refine ⟨?_, ?_, ?_, ?_⟩
  · simp only [calcProbabilityOfProfit]
    split_ifs <;> first | exact h01 | exact hclamp _
  · exact h01
  · intro h
    simp only [calcProbabilityOfProfit]
    split_ifs <;> first | rfl | exact absurd (Or.inl h) (by assumption)
  · intro _h
    rfl

/-! ### C7: validation of an expired opportunity -/

/-- C7: an opportunity already past expiry is rejected with the expiry reason
before any venue call is made. -/
theorem C7_theorem (env : ValidateEnv) (now : ℚ) (opp : ArbitrageOpportunity)
    (h : opp.expires_at < now) :
    validateOpportunity env now opp = ((false, ["Market has expired"]), 0) := by
  unfold validateOpportunity
  rw [if_pos h.le]

/-- A concrete expired opportunity exercising C7. -/
def oppC7 : ArbitrageOpportunity :=
  { polymarket_side := MarketSide.DOWN
    polymarket_price := 4 / 10
    polymarket_quantity := 5000
    hedge_side := MarketSide.LONG
    hedge_price := 100
    hedge_quantity := 30
    expected_profit_usd := 100
    expected_profit_percentage := 5
    breakeven_price := 110
    max_risk_usd := 2000
    probability_of_profit := 6 / 10
    expires_at := 0 }

/-- Environment for the C7 witness (its venue data is never consulted). -/
def envC7 : ValidateEnv :=
  { market_data := some { bid := 100, ask := 100 }
    pm_book_liquidity := 100000
    pm_balance := 100000
    exchange_usdt_balance := 100000 }

/-- C7 witness at a concrete expired opportunity. -/
theorem C7_witness :
    oppC7.expires_at < 1 ∧
      validateOpportunity envC7 1 oppC7 = ((false, ["Market has expired"]), 0) :=
  ⟨by norm_num [oppC7], C7_theorem envC7 1 oppC7 (by norm_num [oppC7])⟩

/-! ### C2: ranking order of scan results -/

/-- C2 amended: the hyperliquid scan is sorted descending by
expected_profit_usd × probability_of_profit, while the generic scan is sorted
descending by expected_profit_usd alone. -/
theorem C2_amended_theorem :
    ∀ (sqrtQ cdf : ℚ → ℚ) (taker_fee : ℚ)
      (fetchedG : List (List PolymarketMarket × SpotMarket))
      (fetchedHL : List (List PolymarketMarket × SpotMarket × ℚ)) (now : ℚ),
      List.Sorted (keyGE sortKeyGeneric) (scanForOpportunities sqrtQ cdf taker_fee fetchedG now) ∧
        List.Sorted (keyGE sortKeyHL) (hlScanForOpportunities sqrtQ cdf fetchedHL now) :=
  fun _ _ _ _ _ _ =>
    ⟨List.sorted_insertionSort (keyGE sortKeyGeneric) _,
      List.sorted_insertionSort (keyGE sortKeyHL) _⟩

/-- Stand-in for the external square-root routine; the concrete inputs below
only evaluate it at 1, where the true square root is 1. -/
def sqrtId : ℚ → ℚ := fun x => x

/-- Stand-in for the external normal cdf returning one half everywhere. -/
def cdfHalf : ℚ → ℚ := fun _ => 1 / 2

/-- Stand-in normal cdf for the C2 counterexample: a monotone step function
with values in [0,1] agreeing with the standard normal cdf to two decimals at
the two z-scores the scan evaluates (Φ(1/3) ≈ 0.63 and Φ(5/3) ≈ 0.95; the
order inversion below also occurs under the exact Φ, where the second
probability likewise clamps to 1). -/
def cdfC2 : ℚ → ℚ := fun z => if z < 1 then 63 / 100 else 95 / 100

/-- First market of the C2 counterexample (target close to the hedge price:
higher expected profit, lower probability of profit). -/
def pmC2A : PolymarketMarket :=
  { target_price := 101
    expiry_time := 86400
    up_price := 6 / 10
    down_price := 4 / 10
    up_liquidity := 100000
    down_liquidity := 100000 }

/-- Hedge quote paired with pmC2A. -/
def spotC2A : SpotMarket := { bid := 100, ask := 100 }

/-- Second market of the C2 counterexample (lower expected profit, high
probability, so larger profit × probability). -/
def pmC2B : PolymarketMarket :=
  { target_price := 210
    expiry_time := 86400
    up_price := 6 / 10
    down_price := 4 / 10
    up_liquidity := 1000
    down_liquidity := 1000 }

/-- Hedge quote paired with pmC2B. -/
def spotC2B : SpotMarket := { bid := 200, ask := 200 }

/-- The concrete generic scan of the C2 counterexample. -/
def scanC2 : List ArbitrageOpportunity :=
  scanForOpportunities sqrtId cdfC2 (4 / 10000) [([pmC2A], spotC2A), ([pmC2B], spotC2B)] 0

/-- C2 counterexample: with a monotone, [0,1]-valued cdf oracle matching the
standard normal cdf at the evaluated points, the generic-detector scan
returns a list that is not sorted descending by
expected_profit_usd × probability_of_profit (it is sorted by
expected_profit_usd alone: profits 289641/160 > 14593/10 but products
200721213/160000 < 14593/10). -/
theorem C2_counterexample :
    Monotone cdfC2 ∧ (∀ z, 0 ≤ cdfC2 z ∧ cdfC2 z ≤ 1) ∧
      ¬ List.Sorted (keyGE sortKeyHL) scanC2 := by
  refine ⟨?_, ?_, ?_⟩
  · intro a b hab
    unfold cdfC2
    by_cases hb : b < 1
    · rw [if_pos (lt_of_le_of_lt hab hb), if_pos hb]
    · by_cases ha : a < 1
      · rw [if_pos ha, if_neg hb]
        norm_num
      · rw [if_neg ha, if_neg hb]
  · intro z
    unfold cdfC2
    split_ifs <;> norm_num
  · intro hs
    have hmap : List.Pairwise (fun x y : ℚ => y ≤ x) (scanC2.map sortKeyHL) :=
      List.pairwise_map.mpr hs
    have hval : scanC2.map sortKeyHL = [200721213 / 160000, 14593 / 10] := by
      norm_num [scanC2, scanForOpportunities, analyzeMarketPair, genericCalc,
        calcProbabilityOfProfit, pmC2A, pmC2B, spotC2A, spotC2B, SpotMarket.mid_price,
        PolymarketMarket.time_to_expiry_hours, MAX_POSITION_SIZE_USD, MIN_PROFIT_THRESHOLD_USD,
        sqrtId, cdfC2, min_def, max_def, abs_eq_max_neg, keyGE, sortKeyGeneric, sortKeyHL,
        List.insertionSort, List.orderedInsert, List.filterMap_cons, List.filterMap_nil]
    rw [hval] at hmap
    have hle : (14593 : ℚ) / 10 ≤ 200721213 / 160000 :=
      (List.pairwise_cons.mp hmap).1 _ (List.mem_singleton.mpr rfl)
    norm_num at hle

/-! ### C1: the expected-profit formula and the probability it uses -/

/-- C1 amended: the generic detector's expected_profit_usd is exactly the
stored probability_of_profit weighted over its win/loss scenario values minus
fees.  The hyperliquid detector instead stores the constant fallback
probability 0.4 (its probability-with-funding computation raises on a
Decimal × float product on every call), while its expected_profit_usd obeys
the formula with the separately computed _estimate_win_probability — which
must itself have succeeded (so only contracts at least 48 hours from expiry
are ever emitted). -/
theorem C1_amended_theorem :
    (∀ (sqrtQ cdf : ℚ → ℚ) (taker_fee : ℚ) (pm_market : PolymarketMarket)
        (spot_market : SpotMarket) (now : ℚ) (opp : ArbitrageOpportunity),
      analyzeMarketPair sqrtQ cdf taker_fee pm_market spot_market now = some opp →
        opp.expected_profit_usd =
          opp.probability_of_profit * (genericCalc taker_fee pm_market spot_market).win_profit -
            (1 - opp.probability_of_profit) * (genericCalc taker_fee pm_market spot_market).pm_loss -
            (genericCalc taker_fee pm_market spot_market).total_fees) ∧
    (∀ (sqrtQ cdf : ℚ → ℚ) (pm_market : PolymarketMarket) (hl_market : SpotMarket)
        (funding_rate now : ℚ) (opp : ArbitrageOpportunity),
      hlAnalyzeMarketPair sqrtQ cdf pm_market hl_market funding_rate now = some opp →
        opp.probability_of_profit = 2 / 5 ∧
        ∃ pe, estimateWinProbability hl_market.mid_price pm_market.target_price
              (pm_market.time_to_expiry_hours now) opp.hedge_side = some pe ∧
          opp.expected_profit_usd =
            pe * (hlProfitComponents opp.polymarket_quantity opp.polymarket_price
                opp.hedge_quantity opp.hedge_price pm_market.target_price opp.hedge_side
                (hlFundingCostPct funding_rate (pm_market.time_to_expiry_hours now))).1 -
              (1 - pe) *
                (hlProfitComponents opp.polymarket_quantity opp.polymarket_price
                  opp.hedge_quantity opp.hedge_price pm_market.target_price opp.hedge_side
                  (hlFundingCostPct funding_rate (pm_market.time_to_expiry_hours now))).2 -
              hlCalcTotalFees (opp.polymarket_quantity * opp.polymarket_price)
                (opp.hedge_quantity * opp.hedge_price)) := by
  constructor
  · intro sqrtQ cdf taker_fee pm spot now opp h
    simp only [analyzeMarketPair] at h
    split_ifs at h with h1 h2 h3 h4 h5 h6 <;> try exact Option.noConfusion h
    injection h with h
    subst h
    rfl
  · intro sqrtQ cdf pm hl funding now opp h
    simp only [hlAnalyzeMarketPair] at h
    split_ifs at h with h1 h2 <;> try exact Option.noConfusion h
    rcases hds : determineStrategy hl.mid_price pm.target_price pm funding with _ | sides <;>
      rw [hds] at h <;> dsimp only at h
    · exact Option.noConfusion h
    · set pmp : ℚ := if sides.1 = MarketSide.UP then pm.up_price else pm.down_price with hpmp
      split_ifs at h with h3 <;> try exact Option.noConfusion h
      rcases hsz : hlCalcPositionSizes pm hl sides.1 pmp
          (hlFundingCostPct funding (pm.time_to_expiry_hours now)) with _ | sizes <;>
        rw [hsz] at h <;> dsimp only at h
      · exact Option.noConfusion h
      · rcases hpc : hlCalcExpectedProfit sizes.1 pmp sizes.2 hl.mid_price
            pm.target_price sides.2 (hlFundingCostPct funding (pm.time_to_expiry_hours now))
            (pm.time_to_expiry_hours now) with _ | profit_calc <;>
          rw [hpc] at h <;> dsimp only at h
        · exact Option.noConfusion h
        · split_ifs at h with h4 h5 <;> try exact Option.noConfusion h
          injection h with h
          subst h
          simp only [hlCalcExpectedProfit] at hpc
          rcases hep : estimateWinProbability hl.mid_price pm.target_price
              (pm.time_to_expiry_hours now) sides.2 with _ | pe <;>
            rw [hep] at hpc <;> dsimp only at hpc
          · split_ifs at hpc
          · split_ifs at hpc <;> first
              | exact Option.noConfusion hpc
              | (injection hpc with hpc; subst hpc; exact ⟨rfl, pe, rfl, rfl⟩)

/-- Market for the C1 counterexample (48 hours to expiry, so the
hyperliquid detector's _estimate_win_probability call succeeds and an
opportunity is actually emitted). -/
def pmC1 : PolymarketMarket :=
  { target_price := 110
    expiry_time := 172800
    up_price := 6 / 10
    down_price := 4 / 10
    up_liquidity := 100000
    down_liquidity := 100000 }

/-- Hyperliquid quote for the C1 counterexample. -/
def hlSpotC1 : SpotMarket := { bid := 100, ask := 100 }

/-- Fallback record for extracting an opportunity out of an Option. -/
def dummyOpportunity : ArbitrageOpportunity :=
  { polymarket_side := MarketSide.UP
    polymarket_price := 0
    polymarket_quantity := 0
    hedge_side := MarketSide.LONG
    hedge_price := 0
    hedge_quantity := 0
    expected_profit_usd := 0
    expected_profit_percentage := 0
    breakeven_price := 0
    max_risk_usd := 0
    probability_of_profit := 0
    expires_at := 0 }

/-- The opportunity the hyperliquid detector emits on the C1 inputs. -/
def oppC1 : ArbitrageOpportunity :=
  (hlAnalyzeMarketPair sqrtId cdfHalf pmC1 hlSpotC1 0 0).getD dummyOpportunity

/-- C1 counterexample: the hyperliquid detector emits an opportunity whose
expected_profit_usd does not satisfy the claimed formula when the probability
plugged in is the probability_of_profit stored on the opportunity: the
detector weighted the scenarios with _estimate_win_probability = 3/5, while
the stored probability_of_profit is the 0.4 exception fallback its
probability-with-funding routine always produces. -/
theorem C1_counterexample :
    (hlAnalyzeMarketPair sqrtId cdfHalf pmC1 hlSpotC1 0 0).isSome = true ∧
      oppC1.expected_profit_usd ≠
        oppC1.probability_of_profit *
            (hlProfitComponents oppC1.polymarket_quantity oppC1.polymarket_price
              oppC1.hedge_quantity oppC1.hedge_price pmC1.target_price oppC1.hedge_side
              (hlFundingCostPct 0 (pmC1.time_to_expiry_hours 0))).1 -
          (1 - oppC1.probability_of_profit) *
            (hlProfitComponents oppC1.polymarket_quantity oppC1.polymarket_price
              oppC1.hedge_quantity oppC1.hedge_price pmC1.target_price oppC1.hedge_side
              (hlFundingCostPct 0 (pmC1.time_to_expiry_hours 0))).2 -
          hlCalcTotalFees (oppC1.polymarket_quantity * oppC1.polymarket_price)
            (oppC1.hedge_quantity * oppC1.hedge_price) := by
  have hscan : hlAnalyzeMarketPair sqrtId cdfHalf pmC1 hlSpotC1 0 0 = some
      { polymarket_side := MarketSide.DOWN
        polymarket_price := 2 / 5
        polymarket_quantity := 5000
        hedge_side := MarketSide.LONG
        hedge_price := 100
        hedge_quantity := 30
        expected_profit_usd := 5871 / 5
        expected_profit_percentage := 5871 / 130
        breakeven_price := 500 / 3
        max_risk_usd := 2000
        probability_of_profit := 2 / 5
        expires_at := 172800 } := by
    have ht : pmC1.time_to_expiry_hours 0 = 48 := by
      norm_num [pmC1, PolymarketMarket.time_to_expiry_hours]
    have hmid : hlSpotC1.mid_price = 100 := by
      norm_num [hlSpotC1, SpotMarket.mid_price]
    have htp : pmC1.target_price = 110 := rfl
    have hdp : pmC1.down_price = 2 / 5 := by norm_num [pmC1]
    have hex : pmC1.expiry_time = 172800 := rfl
    have hfc : hlFundingCostPct 0 48 = 0 := by
      norm_num [hlFundingCostPct]
    have hds : determineStrategy 100 110 pmC1 0 = some (MarketSide.DOWN, MarketSide.LONG) := by
      norm_num [determineStrategy, pmC1, abs_eq_max_neg, max_def]
    have hsz : hlCalcPositionSizes pmC1 hlSpotC1 MarketSide.DOWN (2 / 5) 0 = some (5000, 30) := by
      norm_num [hlCalcPositionSizes, pmC1, hlSpotC1, SpotMarket.mid_price, MAX_POSITION_SIZE_USD,
        DEFAULT_LEVERAGE, min_def]
    have hest : estimateWinProbability 100 110 48 MarketSide.LONG = some (3 / 5) := by
      norm_num [estimateWinProbability, min_def, abs_eq_max_neg, max_def]
    have hpc : hlCalcExpectedProfit 5000 (2 / 5) 30 100 110 MarketSide.LONG 0 48 =
        some (1180, 2000, 500 / 3) := by
      norm_num [hlCalcExpectedProfit, hlProfitComponents, hlFundingCost, hest,
        min_def, abs_eq_max_neg, max_def]
    have hprob : calcProbabilityWithFunding sqrtId cdfHalf 100 110 48 MarketSide.DOWN 0
        = 2 / 5 := rfl
    simp only [hlAnalyzeMarketPair, ht, hmid, htp, hdp, hex, hfc]
    norm_num [hds, hsz, hpc, hprob, hlCalcTotalFees, hyperliquid_taker_fee,
      MIN_PROFIT_THRESHOLD_USD, FUNDING_RATE_THRESHOLD, DEFAULT_LEVERAGE,
      show (MarketSide.DOWN = MarketSide.UP) = False by simp]
  refine ⟨by rw [hscan]; rfl, ?_⟩
  have hopp : oppC1 =
      { polymarket_side := MarketSide.DOWN
        polymarket_price := 2 / 5
        polymarket_quantity := 5000
        hedge_side := MarketSide.LONG
        hedge_price := 100
        hedge_quantity := 30
        expected_profit_usd := 5871 / 5
        expected_profit_percentage := 5871 / 130
        breakeven_price := 500 / 3
        max_risk_usd := 2000
        probability_of_profit := 2 / 5
        expires_at := 172800 } := by
    rw [oppC1, hscan]
    rfl
  rw [hopp]
  norm_num [hlProfitComponents, hlFundingCost, hlCalcTotalFees, hlFundingCostPct, pmC1,
    PolymarketMarket.time_to_expiry_hours, hyperliquid_taker_fee, min_def, max_def,
    abs_eq_max_neg]

/-! ### C9: closeness-to-target rejection -/

/-- Market whose target lies within 1% of the hedge price (C9). -/
def pmC9 : PolymarketMarket :=
  { target_price := 201 / 2
    expiry_time := 86400
    up_price := 6 / 10
    down_price := 4 / 10
    up_liquidity := 100000
    down_liquidity := 100000 }

/-- Hedge quote for C9. -/
def spotC9 : SpotMarket := { bid := 100, ask := 100 }

/-- C9 counterexample: the generic detector emits an opportunity for a
contract whose hedge mid price is within 1% of the target
(|price − target|/price = 1/200): the generic detector computes the distance
but never applies the rejection. -/
theorem C9_counterexample :
    (analyzeMarketPair sqrtId cdfHalf (4 / 10000) pmC9 spotC9 0).isSome = true ∧
      |spotC9.mid_price - pmC9.target_price| / spotC9.mid_price < 1 / 100 := by
  constructor
  · norm_num [analyzeMarketPair, genericCalc, calcProbabilityOfProfit, pmC9, spotC9,
      SpotMarket.mid_price, PolymarketMarket.time_to_expiry_hours, MAX_POSITION_SIZE_USD,
      MIN_PROFIT_THRESHOLD_USD, sqrtId, cdfHalf, min_def, max_def, abs_eq_max_neg]
  · norm_num [pmC9, spotC9, SpotMarket.mid_price, abs_eq_max_neg, max_def]

/-- C9 amended: the hyperliquid detector (alone) performs the
closeness-to-target rejection, with the target price as the denominator:
whenever |(price − target)/target × 100| < 1, its analysis emits nothing. -/
theorem C9_amended_theorem (sqrtQ cdf : ℚ → ℚ) (pm_market : PolymarketMarket)
    (hl_market : SpotMarket) (funding_rate now : ℚ)
    (h : |(hl_market.mid_price - pm_market.target_price) / pm_market.target_price * 100| < 1) :
    hlAnalyzeMarketPair sqrtQ cdf pm_market hl_market funding_rate now = none := by
  have hds : determineStrategy hl_market.mid_price pm_market.target_price pm_market funding_rate
      = none := by
    simp only [determineStrategy]
    by_cases ht : pm_market.target_price = 0
    · rw [if_pos ht]
    · rw [if_neg ht, if_pos h]
  simp only [hlAnalyzeMarketPair, hds]
  split_ifs <;> rfl

/-- C9 witness: at the C9 market the distance condition holds and the
hyperliquid detector indeed emits nothing. -/
theorem C9_witness :
    |((spotC9.mid_price - pmC9.target_price) / pmC9.target_price * 100 : ℚ)| < 1 ∧
      hlAnalyzeMarketPair sqrtId cdfHalf pmC9 spotC9 0 0 = none :=
  ⟨by norm_num [pmC9, spotC9, SpotMarket.mid_price, abs_eq_max_neg, max_def],
    C9_amended_theorem sqrtId cdfHalf pmC9 spotC9 0 0
      (by norm_num [pmC9, spotC9, SpotMarket.mid_price, abs_eq_max_neg, max_def])⟩

/-! ### C3: failed legs always roll back, never OPEN -/

/-- Rollback always ends in CANCELLED or ERROR. -/
lemma rollbackPosition_status (b : Bool) (p : Position) :
    (rollbackPosition b p).status = PositionStatus.CANCELLED ∨
      (rollbackPosition b p).status = PositionStatus.ERROR := by
  unfold rollbackPosition
  split_ifs <;> simp

/-- C3: in both engines, whenever at least one leg fails to fill (or the
pre-leg order-type computation raises), the caller receives nothing and the
position object ends CANCELLED or ERROR — never OPEN. -/
theorem C3_theorem :
    (∀ (strategy : ExecutionStrategy) (env : ExecEnv) (opp : ArbitrageOpportunity) (pid : ℕ),
      env.pm_leg.success = false ∨ env.hedge_leg.success = false →
        (executeOpportunity strategy env true opp pid).returned = none ∧
          ∃ p, (executeOpportunity strategy env true opp pid).position = some p ∧
            (p.status = PositionStatus.CANCELLED ∨ p.status = PositionStatus.ERROR)) ∧
    (∀ (env : HLExecEnv) (opp : ArbitrageOpportunity) (pid : ℕ),
      env.exec_success = false →
        (hlExecuteOpportunity env true opp pid).returned = none ∧
          ∃ p, (hlExecuteOpportunity env true opp pid).position = some p ∧
            (p.status = PositionStatus.CANCELLED ∨ p.status = PositionStatus.ERROR)) := by
  constructor
  · intro strategy env opp pid hfail
    rcases hfail with h | h <;> cases strategy <;>
      simp only [executeOpportunity, shouldUseMarketOrders, h, Bool.false_and, Bool.and_false,
        Bool.false_eq_true, if_false, reduceCtorEq, ite_false] <;>
      exact ⟨by trivial, _, by trivial, rollbackPosition_status _ _⟩
  · intro env opp pid hfail
    simp only [hlExecuteOpportunity, hfail, Bool.false_eq_true, if_false, reduceCtorEq,
      ite_false]
    exact ⟨by trivial, _, by trivial, rollbackPosition_status _ _⟩

/-! ### C4: stop-loss and take-profit placement on the OPEN path -/

/-- Opportunity with a short hedge for the C4 counterexample (entry 100,
breakeven 90). -/
def oppC4 : ArbitrageOpportunity :=
  { polymarket_side := MarketSide.UP
    polymarket_price := 4 / 10
    polymarket_quantity := 5000
    hedge_side := MarketSide.SHORT
    hedge_price := 100
    hedge_quantity := 30
    expected_profit_usd := 100
    expected_profit_percentage := 5
    breakeven_price := 90
    max_risk_usd := 2000
    probability_of_profit := 6 / 10
    expires_at := 86400 }

/-- Venue outcome where both legs fill at the assumed prices (C4). -/
def envC4 : HLExecEnv :=
  { exec_success := true
    pm_fill_price := 4 / 10
    pm_fill_qty := 5000
    hl_entry_price := 100
    hl_qty := 30
    rollback_raises := false }

/-- The position the hyperliquid engine returns on the C4 inputs. -/
def posC4 : Position :=
  (hlExecuteOpportunity envC4 true oppC4 1).returned.getD (mkPendingPosition 0 oppC4)

/-- C4 counterexample: the hyperliquid engine returns an OPEN position whose
take-profit (0.95 × breakeven = 85.5) does not lie strictly between the
breakeven price (90) and the short-hedge entry price (100). -/
theorem C4_counterexample :
    (hlExecuteOpportunity envC4 true oppC4 1).returned.isSome = true ∧
      posC4.status = PositionStatus.OPEN ∧
      posC4.take_profit_price = some (171 / 2) ∧
      ¬ (oppC4.breakeven_price < 171 / 2 ∧ (171 : ℚ) / 2 < envC4.hl_entry_price) := by
  have hret : (hlExecuteOpportunity envC4 true oppC4 1).returned = some
      { position_id := 1
        status := PositionStatus.OPEN
        polymarket_side := MarketSide.UP
        polymarket_order_id := none
        polymarket_entry_price := some (4 / 10)
        polymarket_quantity := some 5000
        hedge_side := MarketSide.SHORT
        hedge_order_id := none
        hedge_entry_price := some 100
        hedge_quantity := some 30
        stop_loss_price := some (502 / 5)
        take_profit_price := some (171 / 2)
        max_loss_usd := 2000
        closed_at := none
        expires_at := 86400 } := by
    norm_num [hlExecuteOpportunity, mkPendingPosition, hlSetRiskParameters, envC4, oppC4,
      stop_loss_decimal, DEFAULT_LEVERAGE,
      show (MarketSide.SHORT = MarketSide.LONG) = False by simp]
  refine ⟨by simp [hret], ?_, ?_, by norm_num [oppC4, envC4]⟩
  · simp only [posC4, hret, Option.getD_some]
  · simp only [posC4, hret, Option.getD_some]

/-- Venue outcome with both legs filled (C4 witness). -/
def envC4W : ExecEnv :=
  { pm_leg := { success := true, entry_price := 4 / 10, quantity := 5000, fees := 1 }
    hedge_leg := { success := true, entry_price := 100, quantity := 30, fees := 1 }
    rollback_raises := false }

/-- Opportunity with a long hedge and breakeven above entry (C4 witness). -/
def oppC4W : ArbitrageOpportunity :=
  { polymarket_side := MarketSide.DOWN
    polymarket_price := 4 / 10
    polymarket_quantity := 5000
    hedge_side := MarketSide.LONG
    hedge_price := 100
    hedge_quantity := 30
    expected_profit_usd := 100
    expected_profit_percentage := 5
    breakeven_price := 110
    max_risk_usd := 2000
    probability_of_profit := 6 / 10
    expires_at := 86400 }

/-- C4 amended: the generic engine's OPEN path places the stop loss strictly
on the losing side of the hedge entry and the take profit strictly between
entry and the opportunity breakeven (given entry > 0 and a breakeven on the
profitable side); the hyperliquid engine does not satisfy this (it sets take
profit at 0.95 × breakeven, see the counterexample). -/
theorem C4_amended_theorem (env : ExecEnv) (opp : ArbitrageOpportunity) (pid : ℕ)
    (strategy : ExecutionStrategy)
    (hstrat : strategy = ExecutionStrategy.AGGRESSIVE ∨ strategy = ExecutionStrategy.PASSIVE)
    (hpm : env.pm_leg.success = true) (hh : env.hedge_leg.success = true)
    (hentry : 0 < env.hedge_leg.entry_price)
    (hbe : if opp.hedge_side = MarketSide.LONG then
        env.hedge_leg.entry_price < opp.breakeven_price
      else opp.breakeven_price < env.hedge_leg.entry_price)
    (hside : opp.hedge_side = MarketSide.LONG ∨ opp.hedge_side = MarketSide.SHORT) :
    ∃ p, (executeOpportunity strategy env true opp pid).returned = some p ∧
      p.status = PositionStatus.OPEN ∧
      p.stop_loss_price = some (calcStopLoss env.hedge_leg.entry_price opp.hedge_side) ∧
      p.take_profit_price =
        some (calcTakeProfit env.hedge_leg.entry_price opp.hedge_side opp.breakeven_price) ∧
      (opp.hedge_side = MarketSide.LONG →
        0 < calcStopLoss env.hedge_leg.entry_price opp.hedge_side ∧
          calcStopLoss env.hedge_leg.entry_price opp.hedge_side < env.hedge_leg.entry_price ∧
          env.hedge_leg.entry_price <
            calcTakeProfit env.hedge_leg.entry_price opp.hedge_side opp.breakeven_price ∧
          calcTakeProfit env.hedge_leg.entry_price opp.hedge_side opp.breakeven_price <
            opp.breakeven_price) ∧
      (opp.hedge_side = MarketSide.SHORT →
        env.hedge_leg.entry_price < calcStopLoss env.hedge_leg.entry_price opp.hedge_side ∧
          opp.breakeven_price <
            calcTakeProfit env.hedge_leg.entry_price opp.hedge_side opp.breakeven_price ∧
          calcTakeProfit env.hedge_leg.entry_price opp.hedge_side opp.breakeven_price <
            env.hedge_leg.entry_price) := by
  have harith :
      (opp.hedge_side = MarketSide.LONG →
        0 < calcStopLoss env.hedge_leg.entry_price opp.hedge_side ∧
          calcStopLoss env.hedge_leg.entry_price opp.hedge_side < env.hedge_leg.entry_price ∧
          env.hedge_leg.entry_price <
            calcTakeProfit env.hedge_leg.entry_price opp.hedge_side opp.breakeven_price ∧
          calcTakeProfit env.hedge_leg.entry_price opp.hedge_side opp.breakeven_price <
            opp.breakeven_price) ∧
      (opp.hedge_side = MarketSide.SHORT →
        env.hedge_leg.entry_price < calcStopLoss env.hedge_leg.entry_price opp.hedge_side ∧
          opp.breakeven_price <
            calcTakeProfit env.hedge_leg.entry_price opp.hedge_side opp.breakeven_price ∧
          calcTakeProfit env.hedge_leg.entry_price opp.hedge_side opp.breakeven_price <
            env.hedge_leg.entry_price) := by
    constructor
    · intro hL
      rw [if_pos hL] at hbe
      unfold calcStopLoss calcTakeProfit
      rw [if_pos hL, if_pos hL]
      unfold stop_loss_decimal
      refine ⟨by linarith, by linarith, by linarith, by linarith⟩
    · intro hS
      have hnl : ¬ opp.hedge_side = MarketSide.LONG := by
        rw [hS]
        simp
      rw [if_neg hnl] at hbe
      unfold calcStopLoss calcTakeProfit
      rw [if_neg hnl, if_neg hnl]
      unfold stop_loss_decimal
      refine ⟨by linarith, by linarith, by linarith⟩
  rcases hstrat with h | h <;> subst h <;>
    simp only [executeOpportunity, shouldUseMarketOrders, hpm, hh, Bool.and_self, if_true,
      Bool.true_eq_false, reduceCtorEq, ite_false, ite_true] <;>
    exact ⟨_, rfl, rfl, rfl, rfl, harith.1, harith.2⟩

/-- C4 witness: concrete both-legs-filled outcome with a long hedge, applying
the amended theorem. -/
theorem C4_witness :
    (0 : ℚ) < envC4W.hedge_leg.entry_price ∧
      ∃ p, (executeOpportunity ExecutionStrategy.AGGRESSIVE envC4W true oppC4W 7).returned
            = some p ∧
        p.status = PositionStatus.OPEN ∧
        p.stop_loss_price = some (calcStopLoss envC4W.hedge_leg.entry_price oppC4W.hedge_side) ∧
        p.take_profit_price = some
          (calcTakeProfit envC4W.hedge_leg.entry_price oppC4W.hedge_side
            oppC4W.breakeven_price) ∧
        (oppC4W.hedge_side = MarketSide.LONG →
          0 < calcStopLoss envC4W.hedge_leg.entry_price oppC4W.hedge_side ∧
            calcStopLoss envC4W.hedge_leg.entry_price oppC4W.hedge_side <
              envC4W.hedge_leg.entry_price ∧
            envC4W.hedge_leg.entry_price <
              calcTakeProfit envC4W.hedge_leg.entry_price oppC4W.hedge_side
                oppC4W.breakeven_price ∧
            calcTakeProfit envC4W.hedge_leg.entry_price oppC4W.hedge_side
                oppC4W.breakeven_price <
              oppC4W.breakeven_price) ∧
        (oppC4W.hedge_side = MarketSide.SHORT →
          envC4W.hedge_leg.entry_price <
              calcStopLoss envC4W.hedge_leg.entry_price oppC4W.hedge_side ∧
            oppC4W.breakeven_price <
              calcTakeProfit envC4W.hedge_leg.entry_price oppC4W.hedge_side
                oppC4W.breakeven_price ∧
            calcTakeProfit envC4W.hedge_leg.entry_price oppC4W.hedge_side
                oppC4W.breakeven_price <
              envC4W.hedge_leg.entry_price) :=
  ⟨by norm_num [envC4W],
    C4_amended_theorem envC4W oppC4W 7 ExecutionStrategy.AGGRESSIVE (Or.inl rfl) rfl rfl
      (by norm_num [envC4W]) (by norm_num [envC4W, oppC4W]) (Or.inl rfl)⟩

/-! ### C8: the daily trade counter resets exactly once per date advance -/

/-- C8: within the UTC day of the last reset, no sequence of risk checks and
executions ever resets the counter (it ends at the start value plus the number
of executions, and the reset date is untouched); when the date has advanced,
the first risk check zeroes the counter and stamps the new date, so
same-day followers cannot reset again. -/
theorem C8_theorem :
    (∀ (today active_len : ℕ) (s : DailyCounter) (evs : List RiskEvent),
      s.last_trade_reset = today →
        (runRiskEvents today active_len s evs).daily_trade_count =
            s.daily_trade_count + countTrades evs ∧
          (runRiskEvents today active_len s evs).last_trade_reset = today) ∧
    (∀ (today active_len : ℕ) (s : DailyCounter),
      s.last_trade_reset < today →
        (checkRiskLimits today active_len s).2.daily_trade_count = 0 ∧
          (checkRiskLimits today active_len s).2.last_trade_reset = today) := by
  constructor
  · intro today active_len s evs
    induction evs generalizing s with
    | nil =>
      intro h
      simp [runRiskEvents, countTrades, h]
    | cons e evs ih =>
      intro h
      cases e with
      | riskCheck =>
        rw [runRiskEvents, checkRiskLimits_sameDay today active_len s h, countTrades_check]
        exact ih s h
      | tradeExecuted =>
        rw [runRiskEvents, countTrades_trade]
        have := ih (recordTrade s) (by simpa [recordTrade] using h)
        rw [this.1]
        refine ⟨by simp [recordTrade]; omega, this.2⟩
  · intro today active_len s h
    have h1 : s.last_trade_reset < today := h
    simp only [checkRiskLimits, if_pos h1]
    split_ifs <;> exact ⟨rfl, rfl⟩

/-! ### C10: a failed close leaves an ERROR position active forever -/

/-- C10: when the hedge close order raises, close_position leaves the
position in the active set with status ERROR and no closed timestamp, the
history is untouched, the active count (the quantity risk checks compare
against the concurrency cap) is unchanged, and the monitor loop skips the
position from then on. -/
theorem C10_theorem (st : ExecutorLedger) (pid : ℕ) (p : Position) (now later : ℚ)
    (price : Option ℚ) (close_fails_later : Bool)
    (hfind : findPosition st pid = some p) (hclosed : p.closed_at = none) :
    findPosition (closePosition true now st pid) pid = some (setStatusError p) ∧
      (setStatusError p).status = PositionStatus.ERROR ∧
      (setStatusError p).closed_at = none ∧
      (closePosition true now st pid).position_history = st.position_history ∧
      activeCount (closePosition true now st pid) = activeCount st ∧
      monitorProcessPosition close_fails_later later price (closePosition true now st pid)
          (setStatusError p) =
        closePosition true now st pid := by
  refine ⟨?_, rfl, by simpa [setStatusError] using hclosed, rfl, ?_, ?_⟩
  · unfold findPosition at hfind ⊢
    simp only [closePosition, eq_self_iff_true, ite_true]
    rw [findPosition_markError, hfind, Option.map_some']
  · simp [closePosition, activeCount, markError]
  · unfold monitorProcessPosition
    rw [if_pos (by simp [setStatusError])]

/-- A concrete OPEN position for the C10 witness. -/
def posC10 : Position :=
  { position_id := 3
    status := PositionStatus.OPEN
    polymarket_side := MarketSide.DOWN
    polymarket_order_id := some 11
    polymarket_entry_price := some (4 / 10)
    polymarket_quantity := some 5000
    hedge_side := MarketSide.LONG
    hedge_order_id := some 12
    hedge_entry_price := some 100
    hedge_quantity := some 30
    stop_loss_price := some 98
    take_profit_price := some 105
    max_loss_usd := 2000
    closed_at := none
    expires_at := 86400 }

/-- A ledger holding only that position. -/
def stC10 : ExecutorLedger :=
  { active_positions := [posC10]
    position_history := [] }

/-- C10 witness: the failed close on the concrete ledger. -/
theorem C10_witness :
    findPosition stC10 3 = some posC10 ∧
      (findPosition (closePosition true 50 stC10 3) 3 = some (setStatusError posC10) ∧
        (setStatusError posC10).status = PositionStatus.ERROR ∧
        (setStatusError posC10).closed_at = none ∧
        (closePosition true 50 stC10 3).position_history = stC10.position_history ∧
        activeCount (closePosition true 50 stC10 3) = activeCount stC10 ∧
        monitorProcessPosition false 60 (some 100) (closePosition true 50 stC10 3)
            (setStatusError posC10) =
          closePosition true 50 stC10 3) :=
  ⟨by simp [findPosition, stC10, posC10],
    C10_theorem stC10 3 posC10 50 60 (some 100) false
      (by simp [findPosition, stC10, posC10]) rfl⟩

end HyperPoly
